import Mathlib

/-!
Shallow embedding of `src/files/utility_functions.py` (repository
`framework_j1`): standalone utility helpers wrapping a secret store, a
data-lake client, a relational driver and local CSV/JSON/file helpers.
External SDK behaviour (vault lookups, driver outcomes, filesystem state)
is modelled by explicit oracle parameters; the repository's own control
flow — argument validation order, exception handling, resource
acquisition/release, commit/rollback — is translated line by line.
-/

namespace UtilityFunctions

/-- Model of a Python runtime value, covering the shapes the helpers
inspect with `isinstance`: strings, ints, `None`, booleans and lists. -/
inductive Val where
  | str (s : String)
  | int (n : Int)
  | pynone
  | bool (b : Bool)
  | list (vs : List Val)

/-- Model of `isinstance(v, str)`. -/
def Val.isStr : Val → Bool
  | .str _ => true
  | _ => false

/-- Model of the Python comparison `v == s` for a string literal `s`
(used by `in` on a list of string literals): non-strings never compare
equal to a string. -/
def Val.eqStr : Val → String → Bool
  | .str a, b => a == b
  | _, _ => false

/-- Model of `type(v)` as rendered into the error f-strings. -/
def Val.pyType : Val → String
  | .str _ => "str"
  | .int _ => "int"
  | .pynone => "NoneType"
  | .bool _ => "bool"
  | .list _ => "list"

/-- Model of `str(v)` as rendered into f-strings. -/
def Val.pyStr : Val → String
  | .str s => s
  | .int n => toString n
  | .pynone => "None"
  | .bool b => cond b "True" "False"
  | .list _ => "[...]"

/-- Python exception kinds raised or handled by the module. -/
inductive PyExc where
  | typeError (msg : String)
  | valueError (msg : String)
  | fileNotFoundError (msg : String)
  | pyodbcError (msg : String)
  | pyodbcProgrammingError (msg : String)
  | unboundLocalError (name : String)
  | resourceNotFoundError (msg : String)
deriving DecidableEq

/-- External effects a helper may perform, recorded in order: each run
returns the list of I/O actions it attempted, so "fails before any I/O"
is the statement that this list is empty. -/
inductive IOAct where
  | statCall (path : String)
  | listdirCall (path : String)
  | openRead (path : String)
  | openWrite (path : String)
  | removeCall (path : String)
  | vaultGet (secret : String)
  | dbConnect
deriving DecidableEq

/-- Model of `str.strip()` on the ASCII whitespace the contract files
use: drop whitespace from both ends of the character list. -/
def pstrip (s : String) : String :=
  ⟨((s.data.dropWhile Char.isWhitespace).reverse.dropWhile
      Char.isWhitespace).reverse⟩

/-- Boolean substring-of-list test: the needle occurs as a contiguous run. -/
def listInfix (needle : List Char) : List Char → Bool
  | [] => needle.isEmpty
  | c :: rest => needle.isPrefixOf (c :: rest) || listInfix needle rest

/-- Model of the Python substring test `needle in hay`. -/
def pyIn (needle hay : String) : Bool := listInfix needle.data hay.data

/-- Oracle for `SecretClient.get_secret`: `none` models the client
raising (missing secret, wrong vault); `some v` a stored secret value. -/
def Vault := String → Option String

/-- Value returned by `get_secret_from_keyvault`: either the secret, or —
when the vendor client raised — the formatted error-message string the
`except` clause returns instead of re-raising. -/
inductive SecretResult where
  | secretVal (v : String)
  | errorMessage (m : String)
deriving DecidableEq

/-- Embedding of `get_secret_from_keyvault` (lines 39-78). `excText`
stands for `str(e)` of the vendor exception. Validation: TypeError when
`keyvault_name` is not a string, then TypeError when `secret_name` is not
a string; then the vault is queried, and any client failure is caught and
returned as a message string. -/
def get_secret_from_keyvault (keyvault_name secret_name : Val)
    (vault : Vault) (excText : String) :
    Except PyExc SecretResult × List IOAct :=
  match keyvault_name with
  | .str _ =>
    match secret_name with
    | .str sn =>
      match vault sn with
      | some v => (.ok (.secretVal v), [.vaultGet sn])
      | none =>
        (.ok (.errorMessage
          ("Error!  Unable to get secret, error message: " ++ excText ++ ".")),
         [.vaultGet sn])
    | other =>
      (.error (.typeError
        ("Secret name should be string.  Got: " ++ other.pyType ++ ".")), [])
  | other =>
    (.error (.typeError
      ("Keyvault name should be string.  Got: " ++ other.pyType ++ ".")), [])

/-- Value returned by `keyvault_connection_strings`: the connection-string
dict on success, or — when either fetch raised — the caught exception
object itself, returned as a value. -/
inductive KvcsResult where
  | dict (entries : List (String × String))
  | excValue (e : PyExc)
deriving DecidableEq

/-- Embedding of `keyvault_connection_strings` (lines 81-116): after the
string check on `keyvault_name` it fetches the two fixed secrets
`metadataConnectionString` and `totesysConnectionString` and builds the
dict `{metadata: ..., totesys: ...}`; if either fetch raises, the caught
exception is returned (not raised). -/
def keyvault_connection_strings (keyvault_name : Val) (vault : Vault) :
    Except PyExc KvcsResult × List IOAct :=
  match keyvault_name with
  | .str _ =>
    match vault "metadataConnectionString" with
    | none =>
      (.ok (.excValue (.resourceNotFoundError "metadataConnectionString")),
       [.vaultGet "metadataConnectionString"])
    | some m =>
      match vault "totesysConnectionString" with
      | none =>
        (.ok (.excValue (.resourceNotFoundError "totesysConnectionString")),
         [.vaultGet "metadataConnectionString",
          .vaultGet "totesysConnectionString"])
      | some t =>
        (.ok (.dict [("metadata", m), ("totesys", t)]),
         [.vaultGet "metadataConnectionString",
          .vaultGet "totesysConnectionString"])
  | other =>
    (.error (.typeError
      ("Expecting strings.  Got: keyvault_name: " ++ other.pyType ++ ".")), [])

/-- Embedding of `list_directory_contents` (lines 151-160). The data-lake
client is modelled by `get_paths`, the oracle returning the entry paths the
storage service lists under a directory; the function keeps exactly the
entries whose path does not contain the `_delta_log` marker segment. -/
def list_directory_contents (directory_name : String)
    (get_paths : String → List String) : List String :=
  (get_paths directory_name).filter (fun p => !(pyIn "_delta_log" p))

/-- Oracle for the `os`-level filesystem predicates used by
`list_folders`: existence, directory test and directory listing. -/
structure OsWorld where
  pathExists : String → Bool
  isdir : String → Bool
  listdir : String → List String

/-- Model of `os.path.join(p, f)`. -/
def pathJoin (p f : String) : String := p ++ "/" ++ f

/-- Embedding of `list_folders` (lines 322-357): string check, existence
check, directory check, then the entries of `os.listdir` that are
themselves directories. -/
def list_folders (path : Val) (w : OsWorld) :
    Except PyExc (List String) × List IOAct :=
  match path with
  | .str p =>
    if w.pathExists p = false then
      (.error (.fileNotFoundError ("Path: " ++ p ++ " does not exist.")),
       [.statCall p])
    else if w.isdir p = false then
      (.error (.fileNotFoundError ("Path: " ++ p ++ " is not a directory.")),
       [.statCall p, .statCall p])
    else
      (.ok ((w.listdir p).filter (fun f => w.isdir (pathJoin p f))),
       [.statCall p, .statCall p, .listdirCall p])
  | _ =>
    (.error (.typeError "Path must be a string"), [])

/-- Oracle for plain text files (`.sql` query text, JSON manifests):
`none` models a missing file. -/
structure TextFS where
  files : String → Option String

/-- Embedding of `read_sql` (lines 360-388): string check, existence
check, then the file is read fully into a string. -/
def read_sql (path : Val) (ts : TextFS) :
    Except PyExc String × List IOAct :=
  match path with
  | .str p =>
    match ts.files p with
    | some content => (.ok content, [.statCall p, .openRead p])
    | none =>
      (.error (.fileNotFoundError ("File: " ++ p ++ " does not exist.")),
       [.statCall p])
  | other =>
    (.error (.typeError
      ("Path must be a string.  Got: " ++ other.pyType ++ ".")), [])

/-- Embedding of `load_json` (lines 597-621): string check, file-existence
check, then the parsed content; the vendor `json.load` is modelled as
returning the stored content of the file. -/
def load_json (path : Val) (ts : TextFS) :
    Except PyExc String × List IOAct :=
  match path with
  | .str p =>
    match ts.files p with
    | some content => (.ok content, [.statCall p, .openRead p])
    | none =>
      (.error (.fileNotFoundError ("File not found at; " ++ p ++ "!")),
       [.statCall p])
  | other =>
    (.error (.typeError ("Expected type string, got: " ++ other.pyType)), [])

/-- Embedding of `return_source_system_path` (lines 506-535): string
check, then the conventional contract path, which must exist as a file
(`isfile` is the filesystem oracle). -/
def return_source_system_path (source_system : Val)
    (isfile : String → Bool) : Except PyExc String × List IOAct :=
  match source_system with
  | .str name =>
    let path := "./src/contracts/" ++ name ++ "/_sourceSystem.json"
    if isfile path then (.ok path, [.statCall path])
    else
      (.error (.fileNotFoundError ("File not found at path: " ++ path ++ "!")),
       [.statCall path])
  | other =>
    (.error (.typeError
      ("source_system must be a string. Got " ++ other.pyType ++ ".")), [])

/-- Model of the local CSV store: an association list from path to file
content, a file's content being its list of rows of cells. The vendor
`csv` module's encode/decode (quoting, line termination) is treated as
exact at the row level; the repository's own header validation,
whitespace stripping and empty-file test are modelled in full. Writes
prepend, and `lookup` takes the most recent entry. -/
def CsvFS := List (String × List (List String))

/-- First-match lookup, modelling `os.path.isfile` plus a read. -/
def CsvFS.lookup : CsvFS → String → Option (List (List String))
  | [], _ => none
  | (q, c) :: rest, p => if q = p then some c else CsvFS.lookup rest p

/-- Anticipated header for an entity contract (lines 407-409). -/
def header_entity : List String :=
  ["name", "description", "connectionString", "sourceQuery", "sortOrder",
   "columnName", "dataType", "required", "primary_key"]

/-- Anticipated header for a source contract (lines 412-413). -/
def header_source : List String :=
  ["name", "description", "sourceType", "keyVaultQuery", "entityNames",
   "notebooks"]

/-- Embedding of `open_csv` (lines 391-448): file-existence check,
empty-file check (`os.path.getsize == 0` is the file having no rows at
all), then the first row — whitespace-stripped — must equal one of the two
recognized headers, and the remaining rows are returned with every cell
whitespace-stripped. `open_csv` performs no type check on `path`. -/
def open_csv (path : String) (fs : CsvFS) :
    Except PyExc (List (List String)) × List IOAct :=
  match fs.lookup path with
  | none =>
    (.error (.fileNotFoundError ("File not found at: " ++ path ++ "!")),
     [.statCall path])
  | some [] =>
    (.error (.valueError "CSV file is empty!"), [.statCall path, .statCall path])
  | some (hdrRow :: rest) =>
    let header := hdrRow.map pstrip
    if !(header == header_entity) && !(header == header_source) then
      (.error (.valueError "Header does not exist or is invalid!"),
       [.statCall path, .statCall path, .openRead path])
    else
      (.ok (rest.map (fun row => row.map pstrip)),
       [.statCall path, .statCall path, .openRead path])

/-- Embedding of `write_to_csv` (lines 558-594): string check on `path`
(`data` and `header` are lists by type, discharging the two list
`isinstance` checks), then the file at `path` is overwritten with the
header row — omitted when the header is empty, Python's falsy `[]` /
defaulted `None` — followed by the data rows. -/
def write_to_csv (path : Val) (data : List (List String))
    (header : List String) (fs : CsvFS) :
    Except PyExc String × CsvFS × List IOAct :=
  match path with
  | .str p =>
    let content := if header.isEmpty then data else header :: data
    (.ok "File written successfully.", (p, content) :: fs, [.openWrite p])
  | other =>
    (.error (.typeError ("Path expects string. Got: " ++ other.pyType ++ ".")),
     fs, [])

/-- Embedding of `delete_file` (lines 538-555): if a file exists at
`path` it is removed, otherwise the call returns with no effect; no
exception is raised either way. `delete_file` performs no type check. -/
def delete_file (path : String) (fs : CsvFS) :
    Except PyExc Unit × CsvFS × List IOAct :=
  match fs.lookup path with
  | some _ =>
    (.ok (), fs.filter (fun e => !(e.1 == path)),
     [.statCall path, .removeCall path])
  | none => (.ok (), fs, [.statCall path])

/-- Embedding of the validation and list mutation of `choose_source`
(lines 451-503): list check, all-strings check, then `Exit` is appended
when absent. The interactive `inquirer` prompt that follows is terminal
I/O outside the program's logic; the returned list is the state of the
caller's list when the prompt is shown — the function's frame effect. -/
def choose_source (source_systems : Val) : Except PyExc (List Val) :=
  match source_systems with
  | .list vs =>
    if (vs.all Val.isStr) = false then
      .error (.typeError "All values in source_systems must be strings")
    else if vs.any (fun v => v.eqStr "Exit") then .ok vs
    else .ok (vs ++ [.str "Exit"])
  | _ => .error (.typeError "source_systems must be a list")

/-- Driver behaviour of `cursor.fetchall()`: either it yields the rows of
a result set, or it raises a `pyodbc.ProgrammingError` with message `msg`
while `cursor.rowcount` reads `rowcount`. -/
inductive FetchBehavior where
  | rows (rs : List (List String))
  | progError (msg : String) (rowcount : Int)
deriving DecidableEq

/-- Oracle for the pyodbc driver during one `query_database` call:
whether each of the two `pyodbc.connect` calls raises a `pyodbc.Error`,
whether `cursor.execute` raises one (with its message), and what
`fetchall` does. -/
structure Driver where
  connect1Fails : Bool
  connect2Fails : Bool
  executeFails : Option String
  fetch : FetchBehavior
deriving DecidableEq

/-- Value produced by a `query_database` run that returns normally:
either the fetched rows or a status/failure message string. -/
inductive DBValue where
  | rows (rs : List (List String))
  | msg (s : String)
deriving DecidableEq

/-- How a `query_database` run ends: a normal return or a propagating
exception. -/
inductive DBOutcome where
  | ret (v : DBValue)
  | raise (e : PyExc)
deriving DecidableEq

/-- Boolean test for a propagating TypeError. -/
def DBOutcome.isTypeError : DBOutcome → Bool
  | .raise (.typeError _) => true
  | _ => false

/-- Resource trace of one `query_database` run: how it ended, whether the
secret store was consulted, how many `pyodbc.connect` calls were made,
and the open/close state of the two connections and the cursor, plus
commit/rollback. `conn1` is the connection opened at line 242 (outside
the `try`), `conn2` the one opened again at line 246 (inside it). -/
structure DBTrace where
  outcome : DBOutcome
  secretFetched : Bool
  connectCalls : Nat
  conn1Opened : Bool
  conn1Closed : Bool
  conn2Opened : Bool
  conn2Closed : Bool
  cursorOpened : Bool
  cursorClosed : Bool
  committed : Bool
  rolledBack : Bool
deriving DecidableEq

/-- Embedding of `query_database` (lines 208-284), following the source
path by path.
Validation: the membership test on `accepted_databases` runs first and
raises ValueError for any name — string or not — outside the set; only
then does the `isinstance` check run, so it can fire only for a
non-string `query`. After validation the connection string is fetched
and `pyodbc.connect` is called at line 242; a second connect at line 246
rebinds `conn`, orphaning the first connection, which no later code
closes. The `finally` block reads the local `cursor`; on paths where the
exception occurred before `cursor = conn.cursor()` was reached, that read
raises UnboundLocalError, which replaces the pending return. -/
def query_database (database_name query : Val) (drv : Driver) : DBTrace :=
  if (database_name.eqStr "metadata" || database_name.eqStr "totesys") = false
  then
    { outcome := .raise (.valueError
        ("Database name: " ++ database_name.pyStr ++ " not accepted.")),
      secretFetched := false, connectCalls := 0,
      conn1Opened := false, conn1Closed := false,
      conn2Opened := false, conn2Closed := false,
      cursorOpened := false, cursorClosed := false,
      committed := false, rolledBack := false }
  else if (database_name.isStr && query.isStr) = false then
    { outcome := .raise (.typeError
        ("Expected strings.  Got database_name: " ++ database_name.pyType ++
         " query: " ++ query.pyType)),
      secretFetched := false, connectCalls := 0,
      conn1Opened := false, conn1Closed := false,
      conn2Opened := false, conn2Closed := false,
      cursorOpened := false, cursorClosed := false,
      committed := false, rolledBack := false }
  else if drv.connect1Fails then
    -- connect at line 242 is outside the try/except: the error propagates
    { outcome := .raise (.pyodbcError "connect failed"),
      secretFetched := true, connectCalls := 1,
      conn1Opened := false, conn1Closed := false,
      conn2Opened := false, conn2Closed := false,
      cursorOpened := false, cursorClosed := false,
      committed := false, rolledBack := false }
  else if drv.connect2Fails then
    -- the except clause rolls back conn (= conn1) and sets up the return
    -- of "Database error!", but the finally block reads the never-assigned
    -- local `cursor` and raises UnboundLocalError instead
    { outcome := .raise (.unboundLocalError "cursor"),
      secretFetched := true, connectCalls := 2,
      conn1Opened := true, conn1Closed := false,
      conn2Opened := false, conn2Closed := false,
      cursorOpened := false, cursorClosed := false,
      committed := false, rolledBack := true }
  else
    match drv.executeFails with
    | some _ =>
      -- cursor.execute raised pyodbc.Error: rollback conn2, return the
      -- generic failure string; finally closes cursor and conn2
      { outcome := .ret (.msg "Database error!"),
        secretFetched := true, connectCalls := 2,
        conn1Opened := true, conn1Closed := false,
        conn2Opened := true, conn2Closed := true,
        cursorOpened := true, cursorClosed := true,
        committed := false, rolledBack := true }
    | none =>
      match drv.fetch with
      | .rows rs =>
        { outcome := .ret (.rows rs),
          secretFetched := true, connectCalls := 2,
          conn1Opened := true, conn1Closed := false,
          conn2Opened := true, conn2Closed := true,
          cursorOpened := true, cursorClosed := true,
          committed := true, rolledBack := false }
      | .progError m rc =>
        if pyIn "No results" m && pyIn "not a query" m then
          { outcome := .ret (.msg
              (if rc = -1 then
                "Query executed successfully. Database infrastructure created."
               else
                "Query executed successfully. Rows affected: " ++ toString rc)),
            secretFetched := true, connectCalls := 2,
            conn1Opened := true, conn1Closed := false,
            conn2Opened := true, conn2Closed := true,
            cursorOpened := true, cursorClosed := true,
            committed := true, rolledBack := false }
        else
          -- `raise pe` falls to the outer `except pyodbc.Error` handler:
          -- rollback and the generic failure string
          { outcome := .ret (.msg "Database error!"),
            secretFetched := true, connectCalls := 2,
            conn1Opened := true, conn1Closed := false,
            conn2Opened := true, conn2Closed := true,
            cursorOpened := true, cursorClosed := true,
            committed := false, rolledBack := true }

/-- Driver sample on which every step succeeds and the statement is a
query returning one row. -/
def drvSelectOk : Driver :=
  { connect1Fails := false, connect2Fails := false,
    executeFails := none, fetch := .rows [["1"]] }

/-- Driver sample on which the second `pyodbc.connect` (line 246) raises. -/
def drvConnect2Fails : Driver :=
  { connect1Fails := false, connect2Fails := true,
    executeFails := none, fetch := .rows [] }

/-- Driver sample reporting the no-result-set programming error with an
explicit zero row count. -/
def drvNoResults (rc : Int) : Driver :=
  { connect1Fails := false, connect2Fails := false,
    executeFails := none,
    fetch := .progError "No results.  Previous SQL was not a query." rc }

/-- Sample `os` world with no paths. -/
def osSample : OsWorld :=
  { pathExists := fun _ => false, isdir := fun _ => false,
    listdir := fun _ => [] }

/-- Sample text-file store with no files. -/
def tsSample : TextFS := { files := fun _ => none }

/-- Sample vault in which every secret is stored and its value is its
own name. -/
def vaultSample : Vault := fun n => some n

/-- Sample data-lake listing: one delta-log entry and one data file. -/
def gpSample : String → List String :=
  fun _ => ["tbl/_delta_log/000.json", "tbl/part-0001.parquet"]

/-- Driver oracle whose fetch raises a ProgrammingError with message `m`
while the cursor row count reads `rc`; connects and execute succeed. -/
def drvFetchProgError (m : String) (rc : Int) : Driver :=
  { connect1Fails := false, connect2Fails := false,
    executeFails := none, fetch := .progError m rc }

/-- Helper: a pair-returning helper raised a TypeError and its recorded
I/O-action list is empty. -/
def raisesTypeErrorNoIO {α : Type} (r : Except PyExc α × List IOAct) : Prop :=
  (∃ m, r.1 = Except.error (PyExc.typeError m)) ∧ r.2 = []

/-- Conjunction formalising the amended claim C1 at one non-string value
`v`: each helper that type-checks its path/name argument rejects `v` with
TypeError and records no I/O; `query_database` rejects `v` as a database
name with ValueError — not TypeError — and as a query with TypeError,
both with no secret fetch and no connect. -/
def typecheckBeforeIO (v : Val) (w : OsWorld) (ts : TextFS)
    (isfile : String → Bool) (fs : CsvFS) (vault : Vault) (excText : String)
    (data : List (List String)) (header : List String) (drv : Driver) :
    Prop :=
  raisesTypeErrorNoIO (list_folders v w)
  ∧ raisesTypeErrorNoIO (read_sql v ts)
  ∧ raisesTypeErrorNoIO (load_json v ts)
  ∧ raisesTypeErrorNoIO (return_source_system_path v isfile)
  ∧ ((∃ m, (write_to_csv v data header fs).1 = .error (.typeError m))
      ∧ (write_to_csv v data header fs).2.1 = fs
      ∧ (write_to_csv v data header fs).2.2 = [])
  ∧ raisesTypeErrorNoIO (get_secret_from_keyvault v (.str "s") vault excText)
  ∧ raisesTypeErrorNoIO (get_secret_from_keyvault (.str "kv") v vault excText)
  ∧ raisesTypeErrorNoIO (keyvault_connection_strings v vault)
  ∧ ((∃ m, (query_database v (.str "SELECT 1") drv).outcome
        = .raise (.valueError m))
      ∧ (query_database v (.str "SELECT 1") drv).secretFetched = false
      ∧ (query_database v (.str "SELECT 1") drv).connectCalls = 0)
  ∧ ((∃ m, (query_database (.str "metadata") v drv).outcome
        = .raise (.typeError m))
      ∧ (query_database (.str "metadata") v drv).secretFetched = false
      ∧ (query_database (.str "metadata") v drv).connectCalls = 0)

/-- C1 (counterexample): at the concrete non-string input `0` in the
database-name position of `query_database`, the call does not fail with a
TypeError-equivalent: the membership test on `accepted_databases` runs
first and raises ValueError, so the claim as stated is false. -/
theorem C1_counterexample :
    (query_database (Val.int 0) (Val.str "SELECT 1")
        drvSelectOk).outcome.isTypeError = false
    ∧ (query_database (Val.int 0) (Val.str "SELECT 1") drvSelectOk).outcome
        = .raise (.valueError "Database name: 0 not accepted.") :=
  ⟨rfl, rfl⟩

/-- C1 (amended): every non-string value is rejected before any I/O by
`list_folders`, `read_sql`, `load_json`, `return_source_system_path`,
`write_to_csv`, `get_secret_from_keyvault` (both name positions) and
`keyvault_connection_strings`, each with a TypeError; `query_database`
rejects a non-string database name with a ValueError (not a TypeError)
and a non-string query with a TypeError, in both cases before any secret
fetch or connect. (`open_csv` and `delete_file` have no type check at
all.) -/
theorem C1_type_checks_before_io (v : Val) (hv : v.isStr = false)
    (w : OsWorld) (ts : TextFS) (isfile : String → Bool) (fs : CsvFS)
    (vault : Vault) (excText : String) (data : List (List String))
    (header : List String) (drv : Driver) :
    typecheckBeforeIO v w ts isfile fs vault excText data header drv := by
  cases v
  case str s => simp [Val.isStr] at hv
  all_goals exact ⟨⟨⟨_, rfl⟩, rfl⟩, ⟨⟨_, rfl⟩, rfl⟩, ⟨⟨_, rfl⟩, rfl⟩,
    ⟨⟨_, rfl⟩, rfl⟩, ⟨⟨_, rfl⟩, rfl, rfl⟩, ⟨⟨_, rfl⟩, rfl⟩, ⟨⟨_, rfl⟩, rfl⟩,
    ⟨⟨_, rfl⟩, rfl⟩, ⟨⟨_, rfl⟩, rfl, rfl⟩, ⟨⟨_, rfl⟩, rfl, rfl⟩⟩

/-- C1 (witness): the amended claim evaluated at the concrete non-string
value `None` against concrete sample worlds. -/
theorem C1_witness :
    Val.pynone.isStr = false ∧
    typecheckBeforeIO Val.pynone osSample tsSample (fun _ => false) []
      vaultSample "err" [] [] drvSelectOk :=
  ⟨rfl, C1_type_checks_before_io Val.pynone rfl osSample tsSample
    (fun _ => false) [] vaultSample "err" [] [] drvSelectOk⟩

/-- C2: the scoped-resource guarantee fails. On a fully successful run
the connection opened at line 242 is acquired (`conn1Opened`) and never
closed (`conn1Closed = false`) because line 246 rebinds `conn` to a
second connection, which is the only one the `finally` block closes; and
when the second connect raises a driver error before `cursor` is ever
assigned, the `finally` block itself raises UnboundLocalError instead of
returning. -/
theorem C2_connection_leak :
    ((query_database (.str "metadata") (.str "SELECT 1")
        drvSelectOk).conn1Opened = true
     ∧ (query_database (.str "metadata") (.str "SELECT 1")
        drvSelectOk).conn1Closed = false
     ∧ (query_database (.str "metadata") (.str "SELECT 1")
        drvSelectOk).outcome = .ret (.rows [["1"]]))
    ∧ ((query_database (.str "metadata") (.str "SELECT 1")
        drvConnect2Fails).outcome = .raise (.unboundLocalError "cursor")
       ∧ (query_database (.str "metadata") (.str "SELECT 1")
        drvConnect2Fails).conn1Opened = true
       ∧ (query_database (.str "metadata") (.str "SELECT 1")
        drvConnect2Fails).conn1Closed = false) :=
  ⟨⟨rfl, rfl, rfl⟩, rfl, rfl, rfl⟩

/-- C3: on a missing secret the code does not raise: the `except` clause
catches the client exception and returns a formatted message string as a
normal value, contradicting the claim (and the function docstring, which
promises an exception when the secret does not exist). The TypeError half
of the claim does hold and is covered by C1. -/
theorem C3_missing_secret_returns_message :
    (get_secret_from_keyvault (.str "kv") (.str "missing")
        (fun _ => none) "(SecretNotFound) missing").1
      = .ok (.errorMessage
          "Error!  Unable to get secret, error message: (SecretNotFound) missing.") :=
  rfl

/-- Helper: first-match lookup finds the entry just written. -/
theorem CsvFS.lookup_cons_self (p : String) (c : List (List String))
    (fs : CsvFS) : CsvFS.lookup ((p, c) :: fs) p = some c := by
  simp [CsvFS.lookup]

/-- Helper: the entity header has no surrounding whitespace, so stripping
fixes it. -/
theorem header_entity_strip : header_entity.map pstrip = header_entity := by
  decide

/-- Helper: the source header has no surrounding whitespace, so stripping
fixes it. -/
theorem header_source_strip : header_source.map pstrip = header_source := by
  decide

/-- Helper: neither recognized header is the empty list. -/
theorem header_entity_ne_nil : header_entity.isEmpty = false := rfl

/-- Helper: neither recognized header is the empty list. -/
theorem header_source_ne_nil : header_source.isEmpty = false := rfl

/-- C4 (counterexample): writing the single row `[" a"]` under the entity
header and reading the file back yields `["a"]` — `open_csv` strips every
cell — so the round trip is not exact on rows whose cells carry
leading or trailing whitespace. -/
theorem C4_counterexample :
    (open_csv "contract.csv"
        (write_to_csv (.str "contract.csv") [[" a"]] header_entity
          ([] : CsvFS)).2.1).1
      = .ok [["a"]]
    ∧ [["a"]] ≠ [[" a"]] :=
  ⟨rfl, by decide⟩

/-- C4 (amended): for every path, every list of rows and either
recognized header, `write_to_csv` followed by `open_csv` on the same path
returns exactly the written rows with every cell whitespace-stripped (the
header row excluded); the round trip is the identity precisely on rows
whose cells carry no surrounding whitespace. -/
theorem C4_roundtrip_stripped (p : String) (data : List (List String))
    (hd : List String) (fs : CsvFS)
    (hhd : hd = header_entity ∨ hd = header_source) :
    (open_csv p (write_to_csv (.str p) data hd fs).2.1).1
      = .ok (data.map (fun row => row.map pstrip)) := by
  rcases hhd with h | h <;> subst h <;>
    simp [write_to_csv, open_csv, header_entity_ne_nil, header_source_ne_nil,
      CsvFS.lookup_cons_self, header_entity_strip, header_source_strip]

/-- C4 (witness): the amended round trip evaluated at a concrete path,
row list and the entity header. -/
theorem C4_witness :
    (header_entity = header_entity ∨ header_entity = header_source)
    ∧ (open_csv "c.csv"
        (write_to_csv (.str "c.csv") [["x", "y"]] header_entity
          ([] : CsvFS)).2.1).1
      = .ok ([["x", "y"]].map (fun row => row.map pstrip)) :=
  ⟨Or.inl rfl,
   C4_roundtrip_stripped "c.csv" [["x", "y"]] header_entity [] (Or.inl rfl)⟩

/-- C5: for every database name — string or otherwise — outside the
accepted set and every query and driver behaviour, `query_database`
raises ValueError with no secret fetch and no connection attempt. -/
theorem C5_bad_alias_rejected_before_io (database_name query : Val)
    (drv : Driver)
    (h1 : database_name.eqStr "metadata" = false)
    (h2 : database_name.eqStr "totesys" = false) :
    (∃ m, (query_database database_name query drv).outcome
        = .raise (.valueError m))
    ∧ (query_database database_name query drv).secretFetched = false
    ∧ (query_database database_name query drv).connectCalls = 0 := by
  simp [query_database, h1, h2]

/-- C5 (witness): the rejection evaluated at the concrete unaccepted
alias `production`. -/
theorem C5_witness :
    (Val.str "production").eqStr "metadata" = false
    ∧ (Val.str "production").eqStr "totesys" = false
    ∧ ((∃ m, (query_database (.str "production") (.str "SELECT 1")
          drvSelectOk).outcome = .raise (.valueError m))
       ∧ (query_database (.str "production") (.str "SELECT 1")
          drvSelectOk).secretFetched = false
       ∧ (query_database (.str "production") (.str "SELECT 1")
          drvSelectOk).connectCalls = 0) :=
  ⟨by decide, by decide,
   C5_bad_alias_rejected_before_io (.str "production") (.str "SELECT 1")
     drvSelectOk (by decide) (by decide)⟩

/-- C6: when the driver reports the no-result-set programming error (its
message contains both `No results` and `not a query`), `query_database`
commits and returns the infrastructure message when the reported row
count is `-1` and otherwise the exact `Rows affected: N` message,
including an explicit zero. -/
theorem C6_no_result_set_message (db q m : String) (rc : Int)
    (hdb : db = "metadata" ∨ db = "totesys")
    (h1 : pyIn "No results" m = true) (h2 : pyIn "not a query" m = true) :
    (query_database (.str db) (.str q) (drvFetchProgError m rc)).outcome
      = .ret (.msg (if rc = -1 then
          "Query executed successfully. Database infrastructure created."
        else
          "Query executed successfully. Rows affected: " ++ toString rc))
    ∧ (query_database (.str db) (.str q)
        (drvFetchProgError m rc)).committed = true := by
  rcases hdb with h | h <;> subst h <;>
    simp [query_database, drvFetchProgError, Val.eqStr, Val.isStr, h1, h2]

/-- C6 (witness): the no-result-set path evaluated at the driver's actual
message text with an explicit zero row count. -/
theorem C6_witness :
    (("metadata" : String) = "metadata" ∨ ("metadata" : String) = "totesys")
    ∧ pyIn "No results" "No results.  Previous SQL was not a query." = true
    ∧ pyIn "not a query" "No results.  Previous SQL was not a query." = true
    ∧ ((query_database (.str "metadata") (.str "UPDATE t SET x = 1")
          (drvFetchProgError "No results.  Previous SQL was not a query."
            0)).outcome
        = .ret (.msg (if (0 : Int) = -1 then
            "Query executed successfully. Database infrastructure created."
          else
            "Query executed successfully. Rows affected: "
              ++ toString (0 : Int)))
       ∧ (query_database (.str "metadata") (.str "UPDATE t SET x = 1")
          (drvFetchProgError "No results.  Previous SQL was not a query."
            0)).committed = true) :=
  ⟨Or.inl rfl, by decide, by decide,
   C6_no_result_set_message "metadata" "UPDATE t SET x = 1"
     "No results.  Previous SQL was not a query." 0 (Or.inl rfl)
     (by decide) (by decide)⟩

/-- C7: `list_directory_contents` returns a sublist of the storage
client's listing — the order of surviving entries is preserved — and an
entry is returned exactly when the client listed it and its path does not
contain the `_delta_log` marker segment. -/
theorem C7_listing_filters_delta_log (dir : String)
    (gp : String → List String) :
    List.Sublist (list_directory_contents dir gp) (gp dir)
    ∧ ∀ p, p ∈ list_directory_contents dir gp
        ↔ (p ∈ gp dir ∧ pyIn "_delta_log" p = false) := by
  constructor
  · exact List.filter_sublist _
  · intro p
    simp [list_directory_contents, List.mem_filter]

/-- C7 (witness): the filtering evaluated on a concrete listing holding
one delta-log entry and one data file. -/
theorem C7_witness :
    List.Sublist (list_directory_contents "tbl" gpSample) (gpSample "tbl")
    ∧ (("tbl/part-0001.parquet" ∈ list_directory_contents "tbl" gpSample)
        ↔ (("tbl/part-0001.parquet" ∈ gpSample "tbl")
            ∧ pyIn "_delta_log" "tbl/part-0001.parquet" = false)) :=
  ⟨(C7_listing_filters_delta_log "tbl" gpSample).1,
   (C7_listing_filters_delta_log "tbl" gpSample).2 "tbl/part-0001.parquet"⟩

/-- C8: `delete_file` at a path where no file exists returns normally and
leaves the file store untouched. -/
theorem C8_delete_missing_is_noop (p : String) (fs : CsvFS)
    (h : fs.lookup p = none) :
    (delete_file p fs).1 = .ok () ∧ (delete_file p fs).2.1 = fs := by
  simp [delete_file, h]

/-- C8 (witness): the no-op evaluated at a concrete missing path in the
empty store. -/
theorem C8_witness :
    CsvFS.lookup [] "ghost.csv" = none
    ∧ (delete_file "ghost.csv" []).1 = .ok ()
    ∧ (delete_file "ghost.csv" []).2.1 = [] :=
  ⟨rfl,
   (C8_delete_missing_is_noop "ghost.csv" [] rfl).1,
   (C8_delete_missing_is_noop "ghost.csv" [] rfl).2⟩

/-- Helper: a list of string values passes the all-strings check. -/
theorem map_str_all_isStr (xs : List String) :
    (xs.map Val.str).all Val.isStr = true := by
  simp [List.all_eq_true, Val.isStr]

/-- Helper: the Python membership test `s in xs` on a list of string
values agrees with list membership of `s`. -/
theorem map_str_any_eqStr (xs : List String) (s : String) :
    ((xs.map Val.str).any (fun v => v.eqStr s) = true) ↔ s ∈ xs := by
  simp [List.any_eq_true, Val.eqStr]

/-- C9: `choose_source` mutates its argument before prompting — on a list
of strings without `Exit` the caller's list gains exactly the appended
`Exit` element, and a list already containing `Exit` is left unchanged. -/
theorem C9_choose_source_appends_exit (xs : List String) :
    (("Exit" ∉ xs →
        choose_source (.list (xs.map Val.str))
          = .ok ((xs ++ ["Exit"]).map Val.str)
        ∧ ((xs ++ ["Exit"]).map Val.str).length
            = (xs.map Val.str).length + 1)
     ∧ ("Exit" ∈ xs →
        choose_source (.list (xs.map Val.str)) = .ok (xs.map Val.str))) := by
  constructor
  · intro hni
    have hany : ((xs.map Val.str).any (fun v => v.eqStr "Exit")) = false := by
      rw [← Bool.not_eq_true, map_str_any_eqStr]
      exact hni
    constructor
    · simp [choose_source, map_str_all_isStr, hany]
    · simp
  · intro hin
    have hany : ((xs.map Val.str).any (fun v => v.eqStr "Exit")) = true :=
      (map_str_any_eqStr xs "Exit").2 hin
    simp [choose_source, map_str_all_isStr, hany]

/-- C9 (witness): the mutation evaluated at the concrete one-element list
`[totesys]`, which does not contain `Exit`. -/
theorem C9_witness :
    ("Exit" ∉ ["totesys"])
    ∧ choose_source (.list (["totesys"].map Val.str))
        = .ok ((["totesys"] ++ ["Exit"]).map Val.str) :=
  ⟨by decide,
   ((C9_choose_source_appends_exit ["totesys"]).1 (by decide)).1⟩

/-- C10: whenever `keyvault_connection_strings` returns a dict, that dict
has exactly the keys `metadata` and `totesys`, in that order, bound to
the values of the fixed secrets `metadataConnectionString` and
`totesysConnectionString`. -/
theorem C10_connection_strings_dict (kv : Val) (vault : Vault)
    (d : List (String × String))
    (h : (keyvault_connection_strings kv vault).1
          = .ok (.dict d)) :
    d.map Prod.fst = ["metadata", "totesys"]
    ∧ ∃ m t, vault "metadataConnectionString" = some m
        ∧ vault "totesysConnectionString" = some t
        ∧ d = [("metadata", m), ("totesys", t)] := by
  cases kv with
  | str s =>
    cases hm : vault "metadataConnectionString" with
    | none => simp [keyvault_connection_strings, hm] at h
    | some m =>
      cases ht : vault "totesysConnectionString" with
      | none => simp [keyvault_connection_strings, hm, ht] at h
      | some t =>
        simp [keyvault_connection_strings, hm, ht] at h
        subst h
        exact ⟨rfl, m, t, rfl, rfl, rfl⟩
  | int n => simp [keyvault_connection_strings] at h
  | pynone => simp [keyvault_connection_strings] at h
  | bool b => simp [keyvault_connection_strings] at h
  | list vs => simp [keyvault_connection_strings] at h

/-- C10 (witness): the dict shape evaluated against the sample vault in
which each secret's value is its own name. -/
theorem C10_witness :
    (keyvault_connection_strings (.str "kv") vaultSample).1
      = .ok (.dict [("metadata", "metadataConnectionString"),
                    ("totesys", "totesysConnectionString")])
    ∧ ([("metadata", "metadataConnectionString"),
        ("totesys", "totesysConnectionString")].map Prod.fst
        = ["metadata", "totesys"]
       ∧ ∃ m t, vaultSample "metadataConnectionString" = some m
          ∧ vaultSample "totesysConnectionString" = some t
          ∧ [("metadata", "metadataConnectionString"),
             ("totesys", "totesysConnectionString")]
              = [("metadata", m), ("totesys", t)]) :=
  ⟨rfl,
   C10_connection_strings_dict (.str "kv") vaultSample
     [("metadata", "metadataConnectionString"),
      ("totesys", "totesysConnectionString")] rfl⟩

end UtilityFunctions
